import Mathlib

/-!
Shallow embedding of the kubesphere registry client (`pkg/registry`:
`digest.go`, `blob.go`, `registry_client.go`, and the client/transport
file defining `Registry`, `Opt`, `newFromTransport`, `New`, `GetRespBody`,
`setDefaultRegistry`).

External collaborators (the HTTP transport, `compress/gzip`,
`encoding/json`) are modelled as explicit function parameters collected in
an `Env` record: the embedded operations are parameterised over them and
additionally return the list of HTTP requests they issued, so that
"issues no network request" is a provable statement.
-/

deriving instance DecidableEq for Except

namespace Kubesphere

/-- Byte strings are modelled as lists of naturals. -/
abbrev Bytes := List Nat

/-- HTTP request: method, URL and headers, as built via `http.NewRequest`
plus `Header.Add`/`Header.Set` calls. Headers are an association list in
insertion order. -/
structure HttpRequest where
  method : String
  url : String
  headers : List (String × String)
deriving Repr, DecidableEq

/-- HTTP response as seen by this client: status code, headers, body. -/
structure HttpResponse where
  statusCode : Nat
  headers : List (String × String)
  body : Bytes
deriving Repr, DecidableEq

/-- Literal-pattern matcher on character lists: does the first list start
with the second? Used to embed the anchored regexes of the client
(`reProtocol`, `bearerRegex`, `basicRegex`) and Go's `strings` helpers in
a form the kernel evaluates. -/
def startsWithChars : List Char → List Char → Bool
  | _, [] => true
  | [], _ :: _ => false
  | c :: cs, d :: ds => c = d && startsWithChars cs ds

/-- Go `http.Header.Get`: the value of the first header with the given
name, or the empty string when the header is absent. -/
def headerGet (hs : List (String × String)) (k : String) : String :=
  ((hs.find? (fun p => p.1 = k)).map Prod.snd).getD ""

/-- Go `http.Header.Add`: append a header. -/
def headerAdd (hs : List (String × String)) (k v : String) :
    List (String × String) :=
  hs ++ [(k, v)]

/-- Go `http.Header.Set`: replace any existing header of that name. -/
def headerSet (hs : List (String × String)) (k v : String) :
    List (String × String) :=
  (hs.filter (fun p => p.1 ≠ k)) ++ [(k, v)]

/-- Image, per the data model (`{Domain, Path, Tag, Digest}`); the fields
are the ones read by `digest.go` and `blob.go` (`image.Path`, `image.Tag`,
`image.Digest`). -/
structure Image where
  Domain : String
  Path : String
  Tag : String
  Digest : String
deriving Repr, DecidableEq

/-- Options record `Opt` from the registry client file. -/
structure Opt where
  Domain : String
  Timeout : Nat
  Headers : List (String × String)
  UseSSL : Bool
deriving Repr, DecidableEq

/-- The `Registry` struct. The `*http.Client` field is not part of the
pure state; the transport lives in `Env`. -/
structure Registry where
  URL : String
  Domain : String
  Username : String
  Password : String
  Opt : Opt
deriving Repr, DecidableEq

/-- Docker `types.AuthConfig` (the fields this code uses). -/
structure AuthConfig where
  Username : String
  Password : String
  ServerAddress : String
deriving Repr, DecidableEq

/-- Error values produced by the registry client:
`netErr` models a transport error returned by `Client.Do`,
`statusErr c` models `fmt.Errorf("got status code: %d", c)`,
`basicAuth` models the sentinel `ErrBasicAuth`,
`jsonErr` models a JSON decode failure surfaced as an error. -/
inductive RegError where
  | netErr : String → RegError
  | statusErr : Nat → RegError
  | basicAuth : RegError
  | jsonErr : String → RegError
deriving Repr, DecidableEq

/-- Manifest `config` object (`Config` in `digest.go`). -/
structure Config where
  MediaType : String
  Size : Nat
  Digest : String
deriving Repr, DecidableEq

/-- Manifest `layers` entries (`Layers` in `digest.go`). -/
structure Layers where
  MediaType : String
  Size : Nat
  Digest : String
deriving Repr, DecidableEq

/-- Decoded schema2 manifest (`ImageDigest` in `digest.go`). -/
structure ImageDigest where
  SchemaVersion : Nat
  MediaType : String
  Config : Config
  Layers : List Layers
deriving Repr, DecidableEq

/-- Zero value of `ImageDigest`: what the struct holds when
`json.Unmarshal` fails and its error is discarded. -/
def emptyImageDigest : ImageDigest :=
  { SchemaVersion := 0, MediaType := ""
    Config := { MediaType := "", Size := 0, Digest := "" }
    Layers := [] }

/-- Bearer token endpoint JSON body (`authToken` in the client file). -/
structure AuthToken where
  Token : String
  AccessToken : String
deriving Repr, DecidableEq

/-- Parsed `WWW-Authenticate` bearer challenge (`authService`; the
`Realm *url.URL` field is modelled as its string form). -/
structure AuthService where
  Realm : String
  Service : String
  Scope : List String
deriving Repr, DecidableEq

/-- External collaborators, passed explicitly:
`client` is `http.Client.Do`; `gunzip` is `gzip.NewReader` + `ReadAll`;
`decodeImageDigest` is `json.Unmarshal` into `ImageDigest` (`none` =
decode failure, which in Go leaves the struct at its zero value);
`parseChallenge` is the quoted-string-aware `WWW-Authenticate` key=value
parser; `decodeAuthToken` is `json.Unmarshal` into `authToken`. -/
structure Env where
  client : HttpRequest → Except RegError HttpResponse
  gunzip : Bytes → Bytes
  decodeImageDigest : Bytes → Option ImageDigest
  parseChallenge : String → Option AuthService
  decodeAuthToken : Bytes → Option AuthToken

/-- Constant `DefaultDockerRegistry`. -/
def DefaultDockerRegistry : String := "https://registry-1.docker.io"

/-- Constant `schema2.MediaTypeManifest` from docker/distribution. -/
def MediaTypeManifest : String :=
  "application/vnd.docker.distribution.manifest.v2+json"

/-- Method `(r *Registry) url(pathTemplate, args...)`: the registry base
URL with the formatted path suffix appended; `fmt.Sprintf` with `%s`
verbs is expanded into string concatenation at each call site. -/
def Registry.url (r : Registry) (pathSuffix : String) : String :=
  r.URL ++ pathSuffix

/-- `GetDigestUrl`: `r.url("/v2/%s/manifests/%s", image.Path, image.Tag)`. -/
def Registry.GetDigestUrl (r : Registry) (image : Image) : String :=
  r.url ("/v2/" ++ image.Path ++ "/manifests/" ++ image.Tag)

/-- `GetBlobUrl`: `r.url("/v2/%s/blobs/%s", image.Path, image.Digest)`. -/
def Registry.GetBlobUrl (r : Registry) (image : Image) : String :=
  r.url ("/v2/" ++ image.Path ++ "/blobs/" ++ image.Digest)

/-- Function `GetRespBody`: decompress the body through gzip exactly when
the `Content-Encoding` header equals `"gzip"`, otherwise return the body
as-is (the `ReadAll` error is abstracted away: bodies are pure byte
lists, and `digest.go`/`blob.go` discard the error anyway). -/
def GetRespBody (env : Env) (resp : HttpResponse) : Bytes :=
  if headerGet resp.headers "Content-Encoding" = "gzip" then
    env.gunzip resp.body
  else
    resp.body

/-- Request built by `Registry.Digest`: GET the digest URL with
`Accept: schema2.MediaTypeManifest` added and, when the token is
non-empty, `Authorization: Bearer <token>` set. -/
def digestRequest (r : Registry) (image : Image) (token : String) :
    HttpRequest :=
  let hs := headerAdd [] "Accept" MediaTypeManifest
  let hs := if token != "" then
      headerSet hs "Authorization" ("Bearer " ++ token)
    else hs
  { method := "GET", url := r.GetDigestUrl image, headers := hs }

/-- Request built by `Registry.Blob`: same header shape against the blob
URL. -/
def blobRequest (r : Registry) (image : Image) (token : String) :
    HttpRequest :=
  let hs := headerAdd [] "Accept" MediaTypeManifest
  let hs := if token != "" then
      headerSet hs "Authorization" ("Bearer " ++ token)
    else hs
  { method := "GET", url := r.GetBlobUrl image, headers := hs }

/-- Method `(r *Registry) Digest(image, token)` from `digest.go`. Returns
the Go result (`digest, err` as an `Except`) paired with the list of HTTP
requests issued. Mirrors the source: early return when
`len(image.Digest) > 1`; a status other than 200/404 is
`fmt.Errorf("got status code: %d", ...)`; otherwise the body is read via
`GetRespBody` (error discarded) and `json.Unmarshal`ed into `ImageDigest`
(error discarded, zero value kept on failure), and `Config.Digest` is
returned with a nil error. -/
def Registry.Digest (env : Env) (r : Registry) (image : Image)
    (token : String) : Except RegError String × List HttpRequest :=
  if image.Digest.length > 1 then
    (.ok image.Digest, [])
  else
    let req := digestRequest r image token
    match env.client req with
    | .error e => (.error e, [req])
    | .ok resp =>
      if resp.statusCode != 200 && resp.statusCode != 404 then
        (.error (.statusErr resp.statusCode), [req])
      else
        let respBody := GetRespBody env resp
        let imageDigest :=
          (env.decodeImageDigest respBody).getD emptyImageDigest
        (.ok imageDigest.Config.Digest, [req])

/-- Method `(r *Registry) Blob(image, token)` from `blob.go`: same request
shape and status acceptance as `Digest`, returning the (gzip-aware)
decoded body bytes. -/
def Registry.Blob (env : Env) (r : Registry) (image : Image)
    (token : String) : Except RegError Bytes × List HttpRequest :=
  let req := blobRequest r image token
  match env.client req with
  | .error e => (.error e, [req])
  | .ok resp =>
    if resp.statusCode != 200 && resp.statusCode != 404 then
      (.error (.statusErr resp.statusCode), [req])
    else
      (.ok (GetRespBody env resp), [req])

/-- Function `setDefaultRegistry` from `registry_client.go`. -/
def setDefaultRegistry (serverAddress : String) : String :=
  if serverAddress = "docker.io" || serverAddress = "" then
    DefaultDockerRegistry
  else
    serverAddress

/-- Function `GetAuthConfig` from `registry_client.go`: always succeeds,
filling in credentials only when both username and password are set. -/
def GetAuthConfig (username password registry : String) :
    Except RegError AuthConfig :=
  let registry := setDefaultRegistry registry
  if username != "" && password != "" && registry != "" then
    .ok { Username := username, Password := password
          ServerAddress := registry }
  else
    .ok { Username := "", Password := "", ServerAddress := registry }

/-- The scheme pattern `http://` as characters. -/
def httpChars : List Char := ['h', 't', 't', 'p', ':', '/', '/']

/-- The scheme pattern `https://` as characters. -/
def httpsChars : List Char := ['h', 't', 't', 'p', 's', ':', '/', '/']

/-- The regex `reProtocol = ^https?://` as a matcher on the string
start. -/
def matchesReProtocol (s : String) : Bool :=
  startsWithChars s.data httpChars || startsWithChars s.data httpsChars

/-- Go `reProtocol.ReplaceAllString(s, "")`: the anchored match removes a
leading scheme when present. -/
def stripReProtocol (s : String) : String :=
  if startsWithChars s.data httpsChars then ⟨s.data.drop 8⟩
  else if startsWithChars s.data httpChars then ⟨s.data.drop 7⟩
  else s

/-- Go `strings.TrimSuffix(s, "/")`: drop one trailing slash. -/
def trimSuffixSlash (s : String) : String :=
  if s.data.getLast? = some '/' then ⟨s.data.dropLast⟩ else s

/-- Function `newFromTransport` from the client file: substitute
`auth.ServerAddress` for an empty or `"docker.io"` domain, trim one
trailing slash, prepend `https://` (SSL) or `http://` (no SSL) when the
scheme is missing, and build the `Registry` (the `transport` argument is
ignored by the source, which installs a fresh client; it is therefore not
a parameter here). Never fails. -/
def newFromTransport (auth : AuthConfig) (opt : Opt) :
    Except RegError Registry :=
  let opt := if opt.Domain.length < 1 || opt.Domain = "docker.io" then
      { opt with Domain := auth.ServerAddress }
    else opt
  let url := trimSuffixSlash opt.Domain
  let authURL := trimSuffixSlash auth.ServerAddress
  let url := if !matchesReProtocol url then
      (if opt.UseSSL then "https://" ++ url else "http://" ++ url)
    else url
  let _authURL := if !matchesReProtocol authURL then
      (if opt.UseSSL then "https://" ++ authURL else "http://" ++ authURL)
    else authURL
  .ok { URL := url, Domain := stripReProtocol url
        Username := auth.Username, Password := auth.Password, Opt := opt }

/-- Function `New`: `newFromTransport` over the default transport. -/
def New (auth : AuthConfig) (opt : Opt) : Except RegError Registry :=
  newFromTransport auth opt

/-- Function `CreateRegistryClient` from `registry_client.go`. -/
def CreateRegistryClient (authURL username password domain : String) :
    Except RegError Registry :=
  let authDomain := if authURL = "" then domain else authURL
  match GetAuthConfig username password authDomain with
  | .error e => .error e
  | .ok auth =>
    New auth { Domain := domain, Timeout := 0, Headers := [], UseSSL := false }

/-- Whitespace class `\s` of Go regexp: `[\t\n\f\r ]`. -/
def isSpaceChar (c : Char) : Bool :=
  c = ' ' || c = '\t' || c = '\n' || c = '\x0c' || c = '\r'

/-- The regex `basicRegex = ^\s*Basic\s+.*$` on a character list. -/
def matchesBasicL (l : List Char) : Bool :=
  let t := l.dropWhile isSpaceChar
  startsWithChars t ['B', 'a', 's', 'i', 'c'] &&
    (match t.drop 5 with
     | c :: _ => isSpaceChar c
     | [] => false)

/-- `basicRegex.MatchString` on the `WWW-Authenticate` header value. -/
def matchesBasic (s : String) : Bool :=
  matchesBasicL s.data

/-- The regex `bearerRegex = ^\s*Bearer\s+(.*)$` on a character list. -/
def matchesBearerL (l : List Char) : Bool :=
  let t := l.dropWhile isSpaceChar
  startsWithChars t ['B', 'e', 'a', 'r', 'e', 'r'] &&
    (match t.drop 6 with
     | c :: _ => isSpaceChar c
     | [] => false)

/-- `bearerRegex.MatchString` on the `WWW-Authenticate` header value. -/
def matchesBearer (s : String) : Bool :=
  matchesBearerL s.data

/-- Modelled from the spec: step 5 of the token negotiation algorithm.
The method body of `Registry.Token` is not part of the source tree (only
its callers, `bearerRegex`/`basicRegex`, `ErrBasicAuth`, `authToken` and
`authService` are); the spec states the JSON body carries a `token` or an
`access_token` field and the negotiator returns whichever is present,
preferring `token`. -/
def pickToken (t : AuthToken) : String :=
  if t.Token != "" then t.Token else t.AccessToken

/-- Modelled from the spec: step 4 of the token negotiation algorithm —
GET the realm URL with `service` and `scope` query parameters, plus HTTP
Basic credentials when configured. The method body of `Registry.Token` is
missing from the source tree. -/
def tokenRequest (r : Registry) (a : AuthService) : HttpRequest :=
  let url := a.Realm ++ "?service=" ++ a.Service ++ "&scope=" ++
    String.intercalate "," a.Scope
  let hs := if r.Username != "" then
      [("Authorization", "Basic " ++ r.Username ++ ":" ++ r.Password)]
    else []
  { method := "GET", url := url, headers := hs }

/-- The unauthenticated probe request of the token negotiator. -/
def probeRequest (url : String) : HttpRequest :=
  { method := "GET", url := url, headers := [] }

/-- Modelled from the spec: the method `Registry.Token`, whose body is
missing from the source tree (spec section 4.2). Algorithm: probe the
target URL without credentials; `200` means no auth is needed (empty
token); on `401`, a bearer challenge is parsed and exchanged at the realm
URL for a token (preferring the `token` JSON field over `access_token`),
while a basic challenge fails fast with the `ErrBasicAuth` sentinel and
no further request; any other status is an error. Returns the result
paired with the list of HTTP requests issued. -/
def Registry.Token (env : Env) (r : Registry) (url : String) :
    Except RegError String × List HttpRequest :=
  let probe := probeRequest url
  match env.client probe with
  | .error e => (.error e, [probe])
  | .ok resp =>
    if resp.statusCode = 200 then
      (.ok "", [probe])
    else if resp.statusCode = 401 then
      let challenge := headerGet resp.headers "WWW-Authenticate"
      if matchesBearer challenge then
        match env.parseChallenge challenge with
        | none => (.error (.jsonErr "challenge"), [probe])
        | some a =>
          let treq := tokenRequest r a
          match env.client treq with
          | .error e => (.error e, [probe, treq])
          | .ok tresp =>
            if tresp.statusCode = 200 then
              match env.decodeAuthToken (GetRespBody env tresp) with
              | none => (.error (.jsonErr "token"), [probe, treq])
              | some t => (.ok (pickToken t), [probe, treq])
            else
              (.error (.statusErr tresp.statusCode), [probe, treq])
      else if matchesBasic challenge then
        (.error .basicAuth, [probe])
      else
        (.error (.statusErr resp.statusCode), [probe])
    else
      (.error (.statusErr resp.statusCode), [probe])

/-- Boolean success test on the Go-style `(value, err)` result: `true`
exactly when the error is nil. -/
def isOkE {α : Type} : Except RegError α → Bool
  | .ok _ => true
  | .error _ => false

/-- Identity byte transformer, used to instantiate `gunzip` in concrete
environments. -/
def idBytes : Bytes → Bytes := fun b => b

/-- Challenge parser stub for environments where no challenge occurs. -/
def noChallenge : String → Option AuthService := fun _ => none

/-- Token decoder stub for environments where no token body occurs. -/
def noAuthToken : Bytes → Option AuthToken := fun _ => none

/-- Concrete decoded schema2 manifest used in counterexamples and
witnesses. -/
def manifestFix : ImageDigest :=
  { SchemaVersion := 2, MediaType := MediaTypeManifest
    Config := { MediaType := "application/vnd.docker.container.image.v1+json"
                Size := 7023
                Digest := "sha256:abc" }
    Layers := [] }

/-- Response with the given status, no headers and the given body. -/
def respOf (code : Nat) (body : Bytes) : HttpResponse :=
  { statusCode := code, headers := [], body := body }

/-- Environment whose transport always yields `resp` and whose manifest
decoder is `dec`. -/
def envConst (resp : HttpResponse) (dec : Bytes → Option ImageDigest) : Env :=
  { client := fun _ => .ok resp
    gunzip := idBytes
    decodeImageDigest := dec
    parseChallenge := noChallenge
    decodeAuthToken := noAuthToken }

/-- Manifest decoder that always succeeds with `manifestFix` (a
restriction of `json.Unmarshal` to bodies that decode to it). -/
def decManifest : Bytes → Option ImageDigest := fun _ => some manifestFix

/-- Manifest decoder for bodies that are not valid manifest JSON. -/
def decFail : Bytes → Option ImageDigest := fun _ => none

/-- Concrete registry fixture (what `CreateRegistryClient` builds for
docker.io). -/
def regFix : Registry :=
  { URL := "https://registry-1.docker.io"
    Domain := "registry-1.docker.io"
    Username := "", Password := ""
    Opt := { Domain := "docker.io", Timeout := 0, Headers := [], UseSSL := false } }

/-- Image fixture with no cached digest. -/
def imgNoDigest : Image :=
  { Domain := "docker.io", Path := "library/alpine", Tag := "latest", Digest := "" }

/-- Image fixture with a one-character (non-empty) cached digest. -/
def imgShortDigest : Image := { imgNoDigest with Digest := "a" }

/-- Image fixture with a full cached digest. -/
def imgFullDigest : Image := { imgNoDigest with Digest := "sha256:abc" }

/-- Concrete 401 response with a basic-auth challenge. -/
def respBasicChallenge : HttpResponse :=
  { statusCode := 401
    headers := [("WWW-Authenticate", "Basic realm=\"Registry\"")]
    body := [] }

/-- Concrete bearer challenge header value. -/
def challengeBearer : String :=
  "Bearer realm=\"https://auth.example/token\",service=\"registry.example\""

/-- Concrete 401 response carrying the bearer challenge. -/
def respProbeBearer : HttpResponse :=
  { statusCode := 401
    headers := [("WWW-Authenticate", challengeBearer)]
    body := [] }

/-- Parsed form of `challengeBearer`. -/
def authServiceFix : AuthService :=
  { Realm := "https://auth.example/token"
    Service := "registry.example"
    Scope := ["repository:library/alpine:pull"] }

/-- Concrete token-endpoint response. -/
def respTokenBody : HttpResponse := respOf 200 [7]

/-- Environment for the bearer-token exchange: the probe URL gets the 401
bearer challenge, any other URL (the realm) gets the token response whose
body decodes to a JSON object with both `token` and `access_token`
fields. -/
def envBearer : Env :=
  { client := fun req =>
      if req.url = "https://reg.example/v2/x" then .ok respProbeBearer
      else .ok respTokenBody
    gunzip := idBytes
    decodeImageDigest := decFail
    parseChallenge := fun s =>
      if s = challengeBearer then some authServiceFix else none
    decodeAuthToken := fun b =>
      if b = [7] then some { Token := "tokA", AccessToken := "tokB" }
      else none }

/-- C1, counterexample: the image fixture with the one-character digest
`"a"` has a non-empty `Digest`, yet `Registry.Digest` neither returns it
unchanged nor refrains from invoking the HTTP client — the guard in the
source is `len(image.Digest) > 1`, not non-emptiness. -/
theorem digest_preset_nonempty_cex :
    imgShortDigest.Digest ≠ "" ∧
    (Registry.Digest (envConst (respOf 200 []) decManifest) regFix
        imgShortDigest "").1 ≠ .ok imgShortDigest.Digest ∧
    (Registry.Digest (envConst (respOf 200 []) decManifest) regFix
        imgShortDigest "").2 ≠ [] :=
  ⟨by decide, by decide, by decide⟩

/-- C1 (amended): for every image whose `Digest` field has length greater
than one and every token, `Registry.Digest` returns that digest unchanged
with a nil error and issues no HTTP request. -/
theorem digest_preset_shortcircuit (env : Env) (r : Registry)
    (image : Image) (token : String) (h : 1 < image.Digest.length) :
    Registry.Digest env r image token = (.ok image.Digest, []) := by
  simp [Registry.Digest, h]

/-- C1, witness: the short-circuit theorem applied to the full-digest
fixture. -/
theorem digest_preset_shortcircuit_witness :
    1 < imgFullDigest.Digest.length ∧
    Registry.Digest (envConst (respOf 200 []) decManifest) regFix
        imgFullDigest "tok" = (.ok "sha256:abc", []) :=
  ⟨by decide,
   digest_preset_shortcircuit (envConst (respOf 200 []) decManifest) regFix
     imgFullDigest "tok" (by decide)⟩

/-- C5: `GetDigestUrl` and `GetBlobUrl` equal the stated concatenations of
`(Registry, Image)` fields; both are pure Lean functions of their
arguments, so identical inputs give identical outputs and there is no
side effect by construction. -/
theorem getUrl_pure_concat (r : Registry) (image : Image) :
    r.GetDigestUrl image =
      r.URL ++ "/v2/" ++ image.Path ++ "/manifests/" ++ image.Tag ∧
    r.GetBlobUrl image =
      r.URL ++ "/v2/" ++ image.Path ++ "/blobs/" ++ image.Digest := by
  constructor <;>
    simp [Registry.GetDigestUrl, Registry.GetBlobUrl, Registry.url,
      String.append_assoc]

/-- C6: the requests built by `Registry.Digest` and `Registry.Blob` carry
an `Authorization` header exactly when the token is non-empty, and then
its value is `"Bearer "` followed by the token (`find?` returning `none`
means no header of that name is present). -/
theorem authorization_header (r : Registry) (image : Image)
    (token : String) :
    (digestRequest r image token).headers.find?
        (fun p => p.1 == "Authorization") =
      (if token = "" then none
       else some ("Authorization", "Bearer " ++ token)) ∧
    (blobRequest r image token).headers.find?
        (fun p => p.1 == "Authorization") =
      (if token = "" then none
       else some ("Authorization", "Bearer " ++ token)) := by
  by_cases h : token = ""
  · subst h
    exact ⟨rfl, rfl⟩
  · simp [digestRequest, blobRequest, headerAdd, headerSet, h,
      List.find?]

/-- C7: `GetRespBody` pipes the body through the gzip reader exactly when
`Content-Encoding` equals `"gzip"` and returns it unchanged otherwise;
under the gzip library contract (decompression inverts compression) a
gzip-encoded response therefore decodes to the original bytes. -/
theorem getRespBody_gzip (env : Env) (resp : HttpResponse)
    (gzipCompress : Bytes → Bytes) (x : Bytes)
    (hrt : ∀ y, env.gunzip (gzipCompress y) = y) :
    (headerGet resp.headers "Content-Encoding" = "gzip" →
      GetRespBody env resp = env.gunzip resp.body) ∧
    (headerGet resp.headers "Content-Encoding" ≠ "gzip" →
      GetRespBody env resp = resp.body) ∧
    GetRespBody env
        { statusCode := 200
          headers := [("Content-Encoding", "gzip")]
          body := gzipCompress x } = x := by
  refine ⟨fun h => by simp [GetRespBody, h],
    fun h => by simp [GetRespBody, h], ?_⟩
  simp [GetRespBody, headerGet, List.find?, hrt]

/-- C7, witness: the round-trip conjunct at the identity
compressor/decompressor pair and a concrete byte list. -/
theorem getRespBody_gzip_witness :
    GetRespBody (envConst (respOf 200 []) decFail)
        { statusCode := 200
          headers := [("Content-Encoding", "gzip")]
          body := idBytes [3, 1, 4] } = [3, 1, 4] :=
  (getRespBody_gzip (envConst (respOf 200 []) decFail) (respOf 200 [])
    idBytes [3, 1, 4] (fun _ => rfl)).2.2

/-- Helper: `GetAuthConfig` succeeds on every input (both branches of the
source return a nil error). -/
theorem getAuthConfig_ok (u p reg : String) :
    ∃ a, GetAuthConfig u p reg = .ok a := by
  simp only [GetAuthConfig]
  split
  · exact ⟨_, rfl⟩
  · exact ⟨_, rfl⟩

/-- C2, counterexample: a 404 manifest response does not always yield an
empty digest — the source still decodes the body after accepting the
status, so a 404 whose body decodes as a manifest returns that manifest's
config digest (non-empty) with a nil error. -/
theorem digest_404_nonempty_cex :
    (Registry.Digest (envConst (respOf 404 []) decManifest) regFix
        imgNoDigest "").1 = .ok "sha256:abc" ∧
    ("sha256:abc" : String) ≠ "" :=
  ⟨by decide, by decide⟩

/-- C2 (amended): once the transport delivers a response,
`Registry.Digest` fails exactly when the status is neither 200 nor 404
and the error then wraps the status code; a 404 gives a nil error with
the digest decoded from the body (empty when the body does not decode);
`Registry.Blob` applies the same status acceptance rule. -/
theorem digest_blob_status_acceptance (env : Env) (r : Registry)
    (image : Image) (token : String) (resp bresp : HttpResponse)
    (hlen : image.Digest.length ≤ 1)
    (hc : env.client (digestRequest r image token) = .ok resp)
    (hb : env.client (blobRequest r image token) = .ok bresp) :
    (isOkE (Registry.Digest env r image token).1 = false ↔
      (resp.statusCode ≠ 200 ∧ resp.statusCode ≠ 404)) ∧
    (resp.statusCode ≠ 200 → resp.statusCode ≠ 404 →
      (Registry.Digest env r image token).1 =
        .error (.statusErr resp.statusCode)) ∧
    (resp.statusCode = 404 →
      (Registry.Digest env r image token).1 =
        .ok ((env.decodeImageDigest (GetRespBody env resp)).getD
          emptyImageDigest).Config.Digest) ∧
    (isOkE (Registry.Blob env r image token).1 = false ↔
      (bresp.statusCode ≠ 200 ∧ bresp.statusCode ≠ 404)) ∧
    (bresp.statusCode ≠ 200 → bresp.statusCode ≠ 404 →
      (Registry.Blob env r image token).1 =
        .error (.statusErr bresp.statusCode)) := by
  have hnot : ¬ image.Digest.length > 1 := by omega
  simp only [Registry.Digest, Registry.Blob, if_neg hnot, hc, hb]
  by_cases h1 : resp.statusCode = 200 <;>
  by_cases h2 : resp.statusCode = 404 <;>
  by_cases h3 : bresp.statusCode = 200 <;>
  by_cases h4 : bresp.statusCode = 404 <;>
    simp [h1, h2, h3, h4, isOkE]

/-- C2, witness: with a transport that always answers status 500, both
operations fail with an error wrapping 500. -/
theorem digest_blob_status_acceptance_witness :
    (Registry.Digest (envConst (respOf 500 []) decFail) regFix
        imgNoDigest "").1 = .error (.statusErr 500) ∧
    (Registry.Blob (envConst (respOf 500 []) decFail) regFix
        imgNoDigest "").1 = .error (.statusErr 500) :=
  ⟨(digest_blob_status_acceptance (envConst (respOf 500 []) decFail) regFix
      imgNoDigest "" (respOf 500 []) (respOf 500 []) (by decide) rfl
      rfl).2.1 (by decide) (by decide),
   (digest_blob_status_acceptance (envConst (respOf 500 []) decFail) regFix
      imgNoDigest "" (respOf 500 []) (respOf 500 []) (by decide) rfl
      rfl).2.2.2.2 (by decide) (by decide)⟩

/-- C3, counterexample: a 200 response whose body is not valid manifest
JSON does not make `Registry.Digest` fail — the `json.Unmarshal` error is
discarded in the source, so the call returns an empty digest with a nil
error. -/
theorem digest_json_swallow_cex :
    decFail (GetRespBody (envConst (respOf 200 [1, 2, 3]) decFail)
      (respOf 200 [1, 2, 3])) = none ∧
    (Registry.Digest (envConst (respOf 200 [1, 2, 3]) decFail) regFix
        imgNoDigest "").1 = .ok "" :=
  ⟨rfl, by decide⟩

/-- C3 (amended): `Registry.Digest` ignores JSON decode failures — on an
accepted status whose body does not decode as a manifest it returns an
empty digest together with a nil error. -/
theorem digest_json_decode_ignored (env : Env) (r : Registry)
    (image : Image) (token : String) (resp : HttpResponse)
    (hlen : image.Digest.length ≤ 1)
    (hc : env.client (digestRequest r image token) = .ok resp)
    (hstatus : resp.statusCode = 200 ∨ resp.statusCode = 404)
    (hdec : env.decodeImageDigest (GetRespBody env resp) = none) :
    (Registry.Digest env r image token).1 = .ok "" := by
  have hnot : ¬ image.Digest.length > 1 := by omega
  simp only [Registry.Digest, if_neg hnot, hc]
  rcases hstatus with h | h <;> simp [h, hdec, emptyImageDigest]

/-- C3, witness: the decode-failure theorem applied to a concrete 200
response with an undecodable body. -/
theorem digest_json_decode_ignored_witness :
    (Registry.Digest (envConst (respOf 200 []) decFail) regFix
        imgNoDigest "x").1 = .ok "" :=
  digest_json_decode_ignored (envConst (respOf 200 []) decFail) regFix
    imgNoDigest "x" (respOf 200 []) (by decide) rfl (Or.inl rfl) rfl

/-- Helper: `GetAuthConfig` succeeds and its `ServerAddress` is the
normalized registry (both branches of the source set it to
`setDefaultRegistry(registry)`). -/
theorem getAuthConfig_serverAddress (u p reg : String) :
    ∃ a, GetAuthConfig u p reg = .ok a ∧
      a.ServerAddress = setDefaultRegistry reg := by
  simp only [GetAuthConfig]
  split
  · exact ⟨_, rfl, rfl⟩
  · exact ⟨_, rfl, rfl⟩

/-- Helper: with an empty auth URL, construction for the bare
`"docker.io"` domain or the empty domain lands on the canonical docker
registry host. -/
theorem createRegistryClient_canonical (u p d : String)
    (hd : d = "docker.io" ∨ d = "") :
    (CreateRegistryClient "" u p d).map Registry.URL =
      .ok DefaultDockerRegistry := by
  obtain ⟨a, ha, hsa⟩ := getAuthConfig_serverAddress u p d
  have hcc : CreateRegistryClient "" u p d =
      New a { Domain := d, Timeout := 0, Headers := [], UseSSL := false } := by
    simp only [CreateRegistryClient, if_true]
    rw [ha]
  rw [hcc]
  rcases hd with h | h <;> subst h <;>
    simp only [New, newFromTransport, hsa] <;> rfl

/-- C4, counterexample: a non-empty `authURL` overrides the docker.io
mapping — constructing with `authURL = "example.com"` and domain
`"docker.io"` yields base URL `http://example.com`, not the canonical
registry host. -/
theorem registry_domain_normalization_cex :
    (CreateRegistryClient "example.com" "" "" "docker.io").map
      Registry.URL = .ok "http://example.com" ∧
    "http://example.com" ≠ DefaultDockerRegistry :=
  ⟨by decide, by decide⟩

/-- C4 (amended): with an empty auth URL, the domains `"docker.io"` and
`""` map to the canonical registry host; in `newFromTransport` a
non-defaulted domain lacking a scheme gets `https://` prepended when SSL
is enabled and `http://` otherwise; and no input is ever rejected. -/
theorem registry_domain_normalization :
    (∀ u p, (CreateRegistryClient "" u p "docker.io").map Registry.URL =
      .ok DefaultDockerRegistry) ∧
    (∀ u p, (CreateRegistryClient "" u p "").map Registry.URL =
      .ok DefaultDockerRegistry) ∧
    (∀ (auth : AuthConfig) (opt : Opt), 1 ≤ opt.Domain.length →
      opt.Domain ≠ "docker.io" →
      matchesReProtocol (trimSuffixSlash opt.Domain) = false →
      (newFromTransport auth opt).map Registry.URL =
        .ok ((if opt.UseSSL then "https://" else "http://") ++
          trimSuffixSlash opt.Domain)) ∧
    (∀ authURL u p d, ∃ reg,
      CreateRegistryClient authURL u p d = .ok reg) := by
  refine ⟨fun u p => createRegistryClient_canonical u p _ (Or.inl rfl),
    fun u p => createRegistryClient_canonical u p _ (Or.inr rfl),
    fun auth opt h1 h2 h3 => ?_, fun authURL u p d => ?_⟩
  · have hlt : ¬ (opt.Domain.length < 1) := by omega
    simp only [newFromTransport, decide_eq_false hlt, decide_eq_false h2,
      Bool.false_or, Except.map]
    cases hssl : opt.UseSSL <;> simp [h3, hssl]
  · obtain ⟨a, ha⟩ :=
      getAuthConfig_ok u p (if authURL = "" then d else authURL)
    simp only [CreateRegistryClient]
    rw [ha]
    exact ⟨_, rfl⟩

/-- C4, witness: the amended normalization at concrete inputs — the
canonical mapping for docker.io, the scheme defaulting for an SSL and a
non-SSL construction, and totality at an arbitrary junk input. -/
theorem registry_domain_normalization_witness :
    (CreateRegistryClient "" "user" "pass" "docker.io").map Registry.URL =
      .ok DefaultDockerRegistry ∧
    (newFromTransport
        { Username := "", Password := "", ServerAddress := "myreg.example" }
        { Domain := "myreg.example", Timeout := 0, Headers := []
          UseSSL := true }).map Registry.URL =
      .ok "https://myreg.example" ∧
    (newFromTransport
        { Username := "", Password := "", ServerAddress := "myreg.example" }
        { Domain := "myreg.example", Timeout := 0, Headers := []
          UseSSL := false }).map Registry.URL =
      .ok "http://myreg.example" ∧
    ∃ reg, CreateRegistryClient "::junk::" "u" "" "éé//" = .ok reg :=
  ⟨registry_domain_normalization.1 "user" "pass",
   registry_domain_normalization.2.2.1 _ _ (by decide) (by decide) (by decide),
   registry_domain_normalization.2.2.1 _ _ (by decide) (by decide) (by decide),
   registry_domain_normalization.2.2.2 "::junk::" "u" "" "éé//"⟩

/-- C10: `CreateRegistryClient` is total — for all four string arguments
it returns a registry with a nil error, because `GetAuthConfig` and
`newFromTransport` succeed on every input. -/
theorem createRegistryClient_total (authURL username password domain :
    String) :
    ∃ reg, CreateRegistryClient authURL username password domain =
      .ok reg := by
  simp only [CreateRegistryClient]
  obtain ⟨a, ha⟩ :=
    getAuthConfig_ok username password (if authURL = "" then domain else authURL)
  rw [ha]
  exact ⟨_, rfl⟩

/-- Helper: a character list starting with `Basic` cannot start with
`Bearer` (they differ at the second character). -/
theorem startsWithChars_basic_not_bearer (l : List Char)
    (h : startsWithChars l ['B', 'a', 's', 'i', 'c'] = true) :
    startsWithChars l ['B', 'e', 'a', 'r', 'e', 'r'] = false := by
  match l with
  | [] => simp [startsWithChars] at h
  | [c1] => simp [startsWithChars] at h
  | c1 :: c2 :: t =>
    simp only [startsWithChars, Bool.and_eq_true, decide_eq_true_eq] at h
    obtain ⟨hc1, hc2, _⟩ := h
    subst hc1
    subst hc2
    simp [startsWithChars]

/-- Helper: a header value matching the basic-auth pattern cannot match
the bearer pattern. -/
theorem matchesBasic_not_bearer (s : String)
    (h : matchesBasic s = true) : matchesBearer s = false := by
  simp only [matchesBasic, matchesBearer, matchesBasicL, matchesBearerL,
    Bool.and_eq_true] at h ⊢
  simp [startsWithChars_basic_not_bearer _ h.1]

/-- C8: when the unauthenticated probe comes back 401 with a
`WWW-Authenticate` header matching the basic pattern, the token
negotiator returns the `ErrBasicAuth` sentinel and the probe is the only
request issued. -/
theorem token_basic_failfast (env : Env) (r : Registry) (url : String)
    (resp : HttpResponse)
    (hc : env.client (probeRequest url) = .ok resp)
    (h401 : resp.statusCode = 401)
    (hbasic : matchesBasic (headerGet resp.headers "WWW-Authenticate") =
      true) :
    Registry.Token env r url = (.error .basicAuth, [probeRequest url]) := by
  have hnb := matchesBasic_not_bearer _ hbasic
  simp [Registry.Token, hc, h401, hnb, hbasic]

/-- C8, witness: the fail-fast theorem at a concrete 401 basic
challenge. -/
theorem token_basic_failfast_witness :
    Registry.Token (envConst respBasicChallenge decFail) regFix
        "https://reg.example/v2/x" =
      (.error .basicAuth, [probeRequest "https://reg.example/v2/x"]) :=
  token_basic_failfast (envConst respBasicChallenge decFail) regFix
    "https://reg.example/v2/x" respBasicChallenge rfl rfl (by decide)

/-- C9: when the probe yields a 401 bearer challenge that parses, and the
realm answers 200 with a body decoding to the token JSON, the negotiator
returns the `token` field when it is non-empty and the `access_token`
field otherwise — i.e. whichever is present, preferring `token`. -/
theorem token_prefers_token_field (env : Env) (r : Registry)
    (url : String) (resp tresp : HttpResponse) (a : AuthService)
    (tok : AuthToken)
    (hc : env.client (probeRequest url) = .ok resp)
    (h401 : resp.statusCode = 401)
    (hbear : matchesBearer (headerGet resp.headers "WWW-Authenticate") =
      true)
    (hpc : env.parseChallenge (headerGet resp.headers "WWW-Authenticate") =
      some a)
    (htc : env.client (tokenRequest r a) = .ok tresp)
    (h200 : tresp.statusCode = 200)
    (hdec : env.decodeAuthToken (GetRespBody env tresp) = some tok) :
    (Registry.Token env r url).1 =
      .ok (if tok.Token = "" then tok.AccessToken else tok.Token) := by
  simp only [Registry.Token, hc, h401, hbear, hpc, htc, h200, hdec]
  by_cases ht : tok.Token = "" <;> simp [pickToken, ht]

/-- C9, witness: the preference theorem at a concrete exchange where both
JSON fields are present; the `token` field wins. -/
theorem token_prefers_token_field_witness :
    (Registry.Token envBearer regFix "https://reg.example/v2/x").1 =
      .ok "tokA" :=
  token_prefers_token_field envBearer regFix "https://reg.example/v2/x"
    respProbeBearer respTokenBody authServiceFix
    { Token := "tokA", AccessToken := "tokB" }
    rfl rfl (by decide) (by decide) (by decide) rfl rfl

end Kubesphere
